import Mathlib

/-! Verification development for the sapphire build core
(sapphire-core/src/build/devtools.rs and
sapphire-core/src/build/formula/source/make.rs).

The Rust code is shallowly embedded: filesystem and subprocess effects are
made explicit as data passed in and out of the embedded functions, and the
functions themselves follow the source's control flow. -/

namespace Sapphire

/-- Error type mirroring the `SapphireError` variants constructed in the
two embedded source files.  Each variant carries its human-readable
message. -/
inductive SapphireError where
  | BuildEnvError : String → SapphireError
  | CommandExecError : String → SapphireError
  | Generic : String → SapphireError
  | Io : String → SapphireError
deriving DecidableEq

/-! AutotoolsSniffer: `is_gnu_autotools_configure` (make.rs lines 15-54).

A script file is modelled by `Option (List Nat)`: `none` when opening or
reading the file fails at the I/O level (e.g. the file does not exist),
`some bytes` when the raw byte content can be read.  `read_to_string`
additionally fails when the bytes are not valid UTF-8; `validUTF8` below
decides UTF-8 well-formedness exactly as Rust's `str` requires it
(continuation byte ranges, no overlong forms, no surrogates, nothing past
U+10FFFF), phrased as the standard byte-level automaton.

`str::contains` with a string pattern is byte-level substring search, so
marker containment is modelled as contiguous-subsequence search on the
byte list (`containsSeq`).  The markers are ASCII, so their byte encodings
are their code points. -/

/-- For a lead byte, the list of (lo, hi) bounds the following
continuation bytes must satisfy, or `none` for an invalid lead byte.
The E0/ED/F0/F4 restrictions exclude overlong encodings, surrogates and
code points above U+10FFFF, matching Rust's UTF-8 validation. -/
def leadRanges (b : Nat) : Option (List (Nat × Nat)) :=
  if b ≤ 0x7F then some []
  else if 0xC2 ≤ b && b ≤ 0xDF then some [(0x80, 0xBF)]
  else if b = 0xE0 then some [(0xA0, 0xBF), (0x80, 0xBF)]
  else if (0xE1 ≤ b && b ≤ 0xEC) || b = 0xEE || b = 0xEF then
    some [(0x80, 0xBF), (0x80, 0xBF)]
  else if b = 0xED then some [(0x80, 0x9F), (0x80, 0xBF)]
  else if b = 0xF0 then some [(0x90, 0xBF), (0x80, 0xBF), (0x80, 0xBF)]
  else if 0xF1 ≤ b && b ≤ 0xF3 then some [(0x80, 0xBF), (0x80, 0xBF), (0x80, 0xBF)]
  else if b = 0xF4 then some [(0x80, 0x8F), (0x80, 0xBF), (0x80, 0xBF)]
  else none

/-- One-byte-at-a-time run of the UTF-8 automaton: the first argument is
the list of bounds still expected for continuation bytes of the current
character. -/
def utf8Run : List (Nat × Nat) → List Nat → Bool
  | [], [] => true
  | [], b :: rest =>
    match leadRanges b with
    | some rs => utf8Run rs rest
    | none => false
  | _ :: _, [] => false
  | (lo, hi) :: rs, b :: rest => if lo ≤ b && b ≤ hi then utf8Run rs rest else false

/-- A byte list is valid UTF-8 (the condition under which Rust's
`read_to_string` succeeds on readable content). -/
def validUTF8 (l : List Nat) : Bool := utf8Run [] l

/-- Contiguous-subsequence (substring) search on byte lists, the semantics
of Rust `str::contains` with a literal pattern. -/
def containsSeq (haystack needle : List Nat) : Bool :=
  if needle.isPrefixOf haystack then true
  else
    match haystack with
    | [] => false
    | _ :: t => containsSeq t needle

/-- Byte encoding of an ASCII string literal (all markers are ASCII). -/
def strBytes (s : String) : List Nat := s.data.map Char.toNat

/-- The three literal markers of `AUTOCONF_MARKERS` (make.rs lines 17-21). -/
def AUTOCONF_MARKERS : List (List Nat) :=
  [ strBytes ("Generated by GNU Autoconf")
  , strBytes ("generated by autoconf")
  , strBytes ("config.status:") ]

/-- Embedding of `is_gnu_autotools_configure` (make.rs lines 15-54).
`file` is the script's raw content, or `none` when it cannot be opened or
read.  `String::with_capacity(READ_BUFFER_SIZE)` only preallocates:
`read_to_string` reads the whole file, so the marker search runs over the
entire content, and the read fails (mapped to `false`) when the content is
not valid UTF-8 or cannot be read at all. -/
def is_gnu_autotools_configure (file : Option (List Nat)) : Bool :=
  match file with
  | none => false
  | some bytes =>
    if validUTF8 bytes then
      AUTOCONF_MARKERS.any (fun marker => containsSeq bytes marker)
    else false

/-- A 4514-byte script whose only marker occurrence starts at byte offset
4500, i.e. strictly beyond the first 4096 bytes. -/
def longScript : List Nat := List.replicate 4500 97 ++ strBytes ("config.status:")

/-! Filesystem model for `simple_make` (make.rs lines 190-362).

Paths are lists of components (`FsPath`); the build directory (the
process's CWD) is the empty path, so `Path::new(".").join(name)` is
`[name]`.  A filesystem snapshot (`FS`) lists the existing regular files
with their permission mode, and the existing directories.  The snapshot
handed to `simple_make` is the state as observed after the `make` /
`make install` subprocesses have run; the manual-recovery branch then
updates it through `create_dir_all`, `copy` and `set_permissions`.
Subprocess spawning is abstracted: each subprocess is assumed to start and
its exit status is a boolean input (`output()`-level failures,
`CommandExecError`, are outside the claims under verification). -/

abbrev FsPath := List String

/-- Model of `Path::parent`: `none` for the empty path, otherwise the path
without its last component. -/
def parentOfPath : FsPath → Option FsPath
  | [] => none
  | xs => some xs.dropLast

/-- Filesystem snapshot: regular files with their permission mode, and
directories. -/
structure FS where
  files : List (FsPath × Nat)
  dirs : List FsPath

/-- Permission mode of the regular file at `p`, or `none` when no such
file exists. -/
def FS.modeOf (fs : FS) (p : FsPath) : Option Nat :=
  (fs.files.find? (fun f => f.1 == p)).map (fun f => f.2)

/-- Model of `Path::is_file`: does a regular file exist at `p`? -/
def FS.isFile (fs : FS) (p : FsPath) : Bool := (fs.modeOf p).isSome

/-- Model of `Path::is_dir`: does a directory exist at `p`? -/
def FS.isDir (fs : FS) (p : FsPath) : Bool := fs.dirs.contains p

/-- Model of `read_dir(p).next().is_some()`: does the directory `p` hold
at least one entry (file or subdirectory)? -/
def FS.hasEntry (fs : FS) (p : FsPath) : Bool :=
  fs.files.any (fun f => parentOfPath f.1 == some p) ||
  fs.dirs.any (fun d => parentOfPath d == some p)

/-- All non-empty prefixes of `p`: the directories `create_dir_all p`
ensures exist. -/
def ancestorsOf (p : FsPath) : List FsPath :=
  (List.range p.length).map (fun i => p.take (i + 1))

/-- Model of `fs::create_dir_all`. -/
def FS.createDirAll (fs : FS) (p : FsPath) : FS :=
  { fs with dirs := ancestorsOf p ++ fs.dirs }

/-- Model of `fs::copy src dst`: copies content and permission bits of
`src` to `dst` (replacing any previous file at `dst`). -/
def FS.copyFile (fs : FS) (src dst : FsPath) : FS :=
  match fs.modeOf src with
  | some m => { fs with files := (dst, m) :: fs.files.filter (fun f => !(f.1 == dst)) }
  | none => fs

/-- Model of `fs::set_permissions p mode`. -/
def FS.setPermissions (fs : FS) (p : FsPath) (mode : Nat) : FS :=
  { fs with files := fs.files.map (fun f => if f.1 == p then (f.1, mode) else f) }

/-- Subprocess invocations `simple_make` can perform, in order. -/
inductive Cmd where
  | make : Cmd
  | makeInstall : FsPath → Cmd
deriving DecidableEq

/-- Outcome of a `simple_make` run: the returned `Result`, the filesystem
after any manual-recovery writes, and the subprocesses invoked. -/
structure SMResult where
  result : Except SapphireError Unit
  fs : FS
  cmds : List Cmd

/-- Message of the `BuildEnvError` when `make` cannot be resolved
(make.rs lines 195-201). -/
def makeNotFoundMsg : String :=
  "make command not found in build environment PATH or system PATH."

/-- Message of the `Generic` error when `make` exits non-zero
(make.rs lines 222-225); the exit status interpolation is elided. -/
def makeFailedMsg : String := "Make failed with status: non-zero"

/-- Message of the `Generic` error when `make install` failed and manual
recovery found nothing (make.rs lines 344-347). -/
def installFailedMsg : String :=
  "Make install failed with status: non-zero and no artifacts found/installed manually"

/-- Heuristic `formula_name` (make.rs lines 290-294): the install
directory's parent's basename, or the empty string when path parsing
fails (`unwrap_or` at line 294). -/
def formula_name (install_dir : FsPath) : String :=
  ((parentOfPath install_dir).bind (fun p => p.getLast?)).getD ("")

/-- Verification check `bin_populated` (make.rs line 280):
`<install dir>/bin` is a directory holding at least one entry. -/
def bin_populated (fs : FS) (install_dir : FsPath) : Bool :=
  let bin_dir := install_dir ++ ["bin"]
  fs.isDir bin_dir && fs.hasEntry bin_dir

/-- Embedding of `simple_make` (make.rs lines 190-362).
`makeFound`: whether `which` resolves `make`; `makeOk` / `installOk`: the
exit statuses of the `make` and `make install PREFIX=..` subprocesses;
`fs`: the filesystem as observed after the install step. -/
def simple_make (install_dir : FsPath) (makeFound makeOk installOk : Bool)
    (fs : FS) : SMResult :=
  if !makeFound then
    { result := .error (.BuildEnvError makeNotFoundMsg), fs := fs, cmds := [] }
  else if !makeOk then
    { result := .error (.Generic makeFailedMsg), fs := fs, cmds := [Cmd.make] }
  else
    let cmds := [Cmd.make, Cmd.makeInstall install_dir]
    let make_install_succeeded := installOk
    let bin_dir := install_dir ++ ["bin"]
    if !(bin_populated fs install_dir) then
      let fname := formula_name install_dir
      let potential_binary_path : FsPath := [fname]
      if fname != "" && fs.isFile potential_binary_path then
        let fs1 := fs.createDirAll bin_dir
        let target_path := bin_dir ++ [fname]
        let fs2 := fs1.copyFile potential_binary_path target_path
        let fs3 := fs2.setPermissions target_path 0o755
        { result := .ok (), fs := fs3, cmds := cmds }
      else if !make_install_succeeded then
        { result := .error (.Generic installFailedMsg), fs := fs, cmds := cmds }
      else
        { result := .ok (), fs := fs, cmds := cmds }
    else
      { result := .ok (), fs := fs, cmds := cmds }

/-! ToolProbe: `find_compiler` (devtools.rs lines 13-89).

The ambient state is an `Env` snapshot: environment variables, the set of
paths existing as regular files (with the subset that is executable and
hence findable by the `which` crate), whether the platform is macOS, the
behaviour of `xcrun --find` (`none`: the subprocess could not be started;
`some (status, stdout)` otherwise), and the PATH directories.  The
`which::which` crate call is modelled by `whichSearch`: it returns the
first PATH candidate that exists as an executable regular file.
`find_compiler` additionally reports which fallback probes (xcrun, PATH
search) it consulted. -/

structure Env where
  vars : List (String × String)
  files : List String
  exec : List String
  macos : Bool
  xcrunOut : String → Option (Bool × String)
  pathDirs : List String

/-- Model of `env::var`: the value of an environment variable. -/
def Env.getVar (e : Env) (v : String) : Option String :=
  (e.vars.find? (fun kv => kv.1 == v)).map (fun kv => kv.2)

/-- Model of `Path::is_file` on the string paths of devtools.rs. -/
def Env.pathExistsFile (e : Env) (p : String) : Bool := e.files.contains p

/-- The override-variable table (devtools.rs lines 15-19): CC for cc,
CXX for c++ / cxx, empty string otherwise. -/
def env_var_name (name : String) : String :=
  if name = "cc" then "CC"
  else if name = "c++" || name = "cxx" then "CXX"
  else ""

/-- Model of `which::which name`: the first candidate `dir/name` over the
PATH directories that exists as an executable regular file. -/
def whichSearch (e : Env) (name : String) : Option String :=
  (e.pathDirs.map (fun d => d ++ "/" ++ name)).find?
    (fun p => e.pathExistsFile p && e.exec.contains p)

/-- Fallback mechanisms `find_compiler` can consult, in order. -/
inductive Probe where
  | xcrunFindProbe : String → Probe
  | pathSearchProbe : String → Probe
deriving DecidableEq

/-- Outcome of `find_compiler`: the returned `Result` and the fallback
probes consulted. -/
structure FCResult where
  result : Except SapphireError String
  probes : List Probe

/-- Step 1 of `find_compiler` (devtools.rs lines 14-38): the override
environment variable, accepted only when set to an existing file. -/
def overrideCandidate (e : Env) (name : String) : Option String :=
  if env_var_name name = "" then none
  else
    match e.getVar (env_var_name name) with
    | some compiler_path =>
      if e.pathExistsFile compiler_path then some compiler_path else none
    | none => none

/-- Step 2 of `find_compiler` (devtools.rs lines 40-82): `xcrun --find`
on macOS, accepted only on a zero exit status with non-empty trimmed
stdout naming an existing file; every failure falls through. -/
def xcrunCandidate (e : Env) (name : String) : Option String :=
  if e.macos then
    match e.xcrunOut name with
    | some (st, out) =>
      if st then
        if out.trim = "" then none
        else if e.pathExistsFile out.trim then some out.trim else none
      else none
    | none => none
  else none

/-- Message of the `BuildEnvError` when the PATH search fails too
(devtools.rs lines 86-88); the underlying which-error text is elided. -/
def compilerNotFoundMsg (name : String) : String :=
  "Failed to find compiler " ++ name ++ " on PATH"

/-- The xcrun probe is consulted exactly on macOS. -/
def macProbes (e : Env) (name : String) : List Probe :=
  if e.macos then [Probe.xcrunFindProbe name] else []

/-- Embedding of `find_compiler` (devtools.rs lines 13-89): override,
then xcrun (macOS only), then PATH search, first match wins. -/
def find_compiler (e : Env) (name : String) : FCResult :=
  match overrideCandidate e name with
  | some p => { result := .ok p, probes := [] }
  | none =>
    match xcrunCandidate e name with
    | some p => { result := .ok p, probes := macProbes e name }
    | none =>
      match whichSearch e name with
      | some p => { result := .ok p, probes := macProbes e name ++ [Probe.pathSearchProbe name] }
      | none => { result := .error (.BuildEnvError (compilerNotFoundMsg name)),
                  probes := macProbes e name ++ [Probe.pathSearchProbe name] }

/-! Concrete data used by the witness theorems. -/

/-- Install directory used by witnesses: Cellar/doggo/1.0.5. -/
def w1dir : FsPath := ["opt", "homebrew", "Cellar", "doggo", "1.0.5"]

/-- Snapshot with a populated `<install dir>/bin`. -/
def w1fs : FS :=
  { files := [(["opt", "homebrew", "Cellar", "doggo", "1.0.5", "bin", "doggo"], 0o755)]
  , dirs := [["opt", "homebrew", "Cellar", "doggo", "1.0.5", "bin"]] }

/-- Install directory for the no-recovery witness. -/
def w3dir : FsPath := ["opt", "homebrew", "Cellar", "doggo", "1.0.5"]

/-- Empty snapshot: no bin directory, no build-root artifact. -/
def w3fs : FS := { files := [], dirs := [] }

/-- Install directory for the manual-recovery witness. -/
def w4dir : FsPath := ["opt", "homebrew", "Cellar", "doggo", "1.0.5"]

/-- Snapshot with no bin directory but a build-root file named like the
install directory's parent's basename. -/
def w4fs : FS := { files := [(["doggo"], 0o644)], dirs := [] }

/-- Environment for the override witness: CC points at a decoy compiler
distinct from the one xcrun and PATH would find. -/
def e6 : Env :=
  { vars := [("CC", "/decoy/cc")], files := ["/decoy/cc", "/usr/bin/cc"]
  , exec := ["/usr/bin/cc"], macos := true
  , xcrunOut := fun _ => some (true, "/usr/bin/cc"), pathDirs := ["/usr/bin"] }

/-- Environment in which no resolution mechanism has a candidate. -/
def e7 : Env :=
  { vars := [], files := [], exec := [], macos := true
  , xcrunOut := fun _ => none, pathDirs := ["/usr/bin"] }

/-- Environment in which only the PATH search has a candidate. -/
def e8 : Env :=
  { vars := [], files := ["/usr/bin/cc"], exec := ["/usr/bin/cc"], macos := false
  , xcrunOut := fun _ => none, pathDirs := ["/usr/bin"] }

/-! Helper lemmas. -/

theorem utf8Run_replicate_ascii (n : Nat) (l : List Nat) :
    utf8Run [] (List.replicate n 97 ++ l) = utf8Run [] l := by
  induction n with
  | zero => simp
  | succ k ih =>
      rw [List.replicate_succ, List.cons_append, utf8Run]
      simp only [leadRanges]
      norm_num
      exact ih

theorem containsSeq_append_right (pre tail needle : List Nat)
    (h : needle.isPrefixOf tail = true) :
    containsSeq (pre ++ tail) needle = true := by
  induction pre with
  | nil => rw [containsSeq.eq_def]; simp only [List.nil_append, h, if_true]
  | cons a t ih =>
      rw [List.cons_append, containsSeq.eq_def]
      by_cases hp : needle.isPrefixOf (a :: (t ++ tail)) = true
      · simp only [hp, if_true]
      · simp only [Bool.not_eq_true] at hp
        simp only [hp, Bool.false_eq_true, if_false, ih]

theorem containsSeq_replicate_ne (n c b : Nat) (bs : List Nat) (h : (b == c) = false) :
    containsSeq (List.replicate n c) (b :: bs) = false := by
  induction n with
  | zero => rw [containsSeq.eq_def]; simp [List.isPrefixOf]
  | succ k ih =>
      rw [List.replicate_succ, containsSeq.eq_def]
      simp only [List.isPrefixOf, h, Bool.false_and, Bool.false_eq_true, if_false]
      exact ih

theorem longScript_take_4096 : longScript.take 4096 = List.replicate 4096 97 := by
  rw [longScript,
    List.take_append_of_le_length (by rw [List.length_replicate]; norm_num),
    List.take_replicate]
  norm_num

theorem modeOf_createDirAll (fs : FS) (d p : FsPath) :
    (fs.createDirAll d).modeOf p = fs.modeOf p := rfl

theorem modeOf_copyFile_self (fs : FS) (src dst : FsPath) (m : Nat)
    (h : fs.modeOf src = some m) :
    (fs.copyFile src dst).modeOf dst = some m := by
  unfold FS.copyFile
  rw [h]
  simp [FS.modeOf, List.find?]

theorem find_map_set (l : List (FsPath × Nat)) (p : FsPath) (mode : Nat)
    (h : (List.find? (fun f => f.1 == p) l).isSome = true) :
    (List.find? (fun f => f.1 == p)
        (l.map (fun f => if f.1 == p then (f.1, mode) else f))).map (fun f => f.2) =
      some mode := by
  induction l with
  | nil => simp at h
  | cons a t ih =>
      by_cases ha : (a.1 == p) = true
      · simp [List.find?, ha]
      · rw [List.find?] at h
        simp only [ha, Bool.false_eq_true] at h
        simp only [List.map_cons, ha, Bool.false_eq_true, if_false]
        rw [List.find?]
        simp only [ha, Bool.false_eq_true]
        exact ih h

theorem modeOf_setPermissions_self (fs : FS) (p : FsPath) (mode : Nat)
    (h : fs.isFile p = true) :
    (fs.setPermissions p mode).modeOf p = some mode := by
  unfold FS.isFile FS.modeOf at h
  rw [Option.isSome_map'] at h
  exact find_map_set fs.files p mode h

theorem overrideCandidate_pathExists (e : Env) (name p : String)
    (h : overrideCandidate e name = some p) : e.pathExistsFile p = true := by
  unfold overrideCandidate at h
  split at h
  · exact absurd h (by simp)
  · split at h
    · split at h
      · rw [Option.some_inj] at h
        subst h
        assumption
      · exact absurd h (by simp)
    · exact absurd h (by simp)

theorem xcrunCandidate_pathExists (e : Env) (name p : String)
    (h : xcrunCandidate e name = some p) : e.pathExistsFile p = true := by
  unfold xcrunCandidate at h
  split at h
  · split at h
    · split at h
      · split at h
        · exact absurd h (by simp)
        · split at h
          · rw [Option.some_inj] at h
            subst h
            assumption
          · exact absurd h (by simp)
      · exact absurd h (by simp)
    · exact absurd h (by simp)
  · exact absurd h (by simp)

theorem whichSearch_pathExists (e : Env) (name p : String)
    (h : whichSearch e name = some p) : e.pathExistsFile p = true := by
  have := List.find?_some h
  exact (Bool.and_eq_true _ _ |>.mp this).1

/-! Claim theorems. -/

/-- C9: when the script file cannot be read (including when it does not
exist), `is_gnu_autotools_configure` returns `false`; the function's
return type is `Bool`, so no error can propagate to the caller. -/
theorem autotools_unreadable_false : is_gnu_autotools_configure none = false := rfl

/-- C10: for an existing script whose content is not valid UTF-8,
`read_to_string` fails, so `is_gnu_autotools_configure` returns `false`
whatever bytes the file holds — in particular even when a marker occurs in
the first 4096 bytes (see the witness). -/
theorem autotools_invalid_utf8_false (bytes : List Nat)
    (h : validUTF8 bytes = false) :
    is_gnu_autotools_configure (some bytes) = false := by
  simp [is_gnu_autotools_configure, h]

/-- Witness for C10: a 15-byte file holding the marker `config.status:`
followed by the invalid byte 0xFF.  The marker lies entirely within the
first 4096 bytes, yet the classifier answers `false`. -/
theorem autotools_invalid_utf8_false_witness :
    validUTF8 (strBytes ("config.status:") ++ [255]) = false ∧
    containsSeq (strBytes ("config.status:") ++ [255]) (strBytes ("config.status:")) = true ∧
    is_gnu_autotools_configure (some (strBytes ("config.status:") ++ [255])) = false :=
  ⟨by decide, by decide, autotools_invalid_utf8_false _ (by decide)⟩

/-- C2 (divergence evidence): `longScript` holds its only marker starting
at byte offset 4500.  No marker occurs anywhere in the first 4096 bytes,
yet `is_gnu_autotools_configure` returns `true`, because
`String::with_capacity(READ_BUFFER_SIZE)` only preallocates and
`read_to_string` reads the entire file, contradicting the function's own
comments (Read first 4KB / first 4096 bytes). -/
theorem autotools_marker_beyond_4096_detected :
    containsSeq (longScript.take 4096) (strBytes ("Generated by GNU Autoconf")) = false ∧
    containsSeq (longScript.take 4096) (strBytes ("generated by autoconf")) = false ∧
    containsSeq (longScript.take 4096) (strBytes ("config.status:")) = false ∧
    is_gnu_autotools_configure (some longScript) = true := by
  have hG : strBytes ("Generated by GNU Autoconf") =
      71 :: strBytes ("enerated by GNU Autoconf") := by decide
  have hg : strBytes ("generated by autoconf") =
      103 :: strBytes ("enerated by autoconf") := by decide
  have hc : strBytes ("config.status:") = 99 :: strBytes ("onfig.status:") := by decide
  have hv : validUTF8 longScript = true := by
    rw [longScript]
    show utf8Run [] _ = true
    rw [utf8Run_replicate_ascii]
    decide
  have hfound : containsSeq longScript (strBytes ("config.status:")) = true := by
    rw [longScript]
    exact containsSeq_append_right _ _ _ (by decide)
  refine ⟨?_, ?_, ?_, ?_⟩
  · rw [longScript_take_4096, hG]
    exact containsSeq_replicate_ne _ _ _ _ (by decide)
  · rw [longScript_take_4096, hg]
    exact containsSeq_replicate_ne _ _ _ _ (by decide)
  · rw [longScript_take_4096, hc]
    exact containsSeq_replicate_ne _ _ _ _ (by decide)
  · simp only [is_gnu_autotools_configure, hv, if_true]
    simp [AUTOCONF_MARKERS, hfound]

/-- C1: when `<install dir>/bin` is a non-empty directory after the
install step, `simple_make` returns success regardless of the
`make install` exit status. -/
theorem simple_make_populated_bin_success (install_dir : FsPath) (installOk : Bool)
    (fs : FS) (h : bin_populated fs install_dir = true) :
    (simple_make install_dir true true installOk fs).result = .ok () := by
  simp [simple_make, h]

/-- Witness for C1: a populated bin directory and a failed
(`installOk = false`) install step still give success. -/
theorem simple_make_populated_bin_success_witness :
    bin_populated w1fs w1dir = true ∧
    (simple_make w1dir true true false w1fs).result = .ok () :=
  ⟨rfl, simple_make_populated_bin_success w1dir false w1fs rfl⟩

/-- C5: when `make` exits non-zero, `simple_make` fails hard with the
make-failure diagnostic, and the `make install` subprocess is never
invoked in that call. -/
theorem simple_make_make_failure_no_install (install_dir : FsPath) (installOk : Bool)
    (fs : FS) :
    (simple_make install_dir true false installOk fs).result =
      .error (.Generic makeFailedMsg) ∧
    (simple_make install_dir true false installOk fs).cmds = [Cmd.make] ∧
    ∀ p, Cmd.makeInstall p ∉ (simple_make install_dir true false installOk fs).cmds := by
  refine ⟨rfl, rfl, ?_⟩
  intro p hp
  simp [simple_make] at hp

/-- C3: when `<install dir>/bin` is not populated and manual recovery
finds no artifact, the outcome follows the recorded `make install` exit
status: success (with only a warning) when it was zero, the hard
install-failure error when it was non-zero. -/
theorem simple_make_no_recovery_defers_to_install_status (install_dir : FsPath)
    (installOk : Bool) (fs : FS)
    (hbin : bin_populated fs install_dir = false)
    (hman : formula_name install_dir = "" ∨ fs.isFile [formula_name install_dir] = false) :
    (simple_make install_dir true true installOk fs).result =
      (if installOk = true then .ok () else .error (.Generic installFailedMsg)) := by
  have hcond : (formula_name install_dir != "" &&
      fs.isFile [formula_name install_dir]) = false := by
    rcases hman with hm | hm
    · simp [hm]
    · simp [hm]
  simp only [simple_make, hbin]
  cases installOk <;> simp [hcond]

/-- Witness for C3: with an empty snapshot, a failed install step yields
the hard error and a successful one yields success. -/
theorem simple_make_no_recovery_witness :
    bin_populated w3fs w3dir = false ∧
    w3fs.isFile [formula_name w3dir] = false ∧
    (simple_make w3dir true true false w3fs).result = .error (.Generic installFailedMsg) ∧
    (simple_make w3dir true true true w3fs).result = .ok () := by
  refine ⟨rfl, rfl, ?_, ?_⟩
  · have h := simple_make_no_recovery_defers_to_install_status w3dir false w3fs rfl (Or.inr rfl)
    simpa using h
  · have h := simple_make_no_recovery_defers_to_install_status w3dir true w3fs rfl (Or.inr rfl)
    simpa using h

/-- C4: when `make` succeeds, `make install` fails, `<install dir>/bin`
is absent, and the build root holds a regular file named like the install
directory's parent's basename, `simple_make` succeeds and that file ends
up at `<install dir>/bin/<name>` with permission mode 0755. -/
theorem simple_make_manual_recovery_installs (install_dir : FsPath) (fs : FS)
    (hbinAbsent : fs.isDir (install_dir ++ ["bin"]) = false)
    (hname : formula_name install_dir ≠ "")
    (hfile : fs.isFile [formula_name install_dir] = true) :
    (simple_make install_dir true true false fs).result = .ok () ∧
    (simple_make install_dir true true false fs).fs.isFile
        (install_dir ++ ["bin", formula_name install_dir]) = true ∧
    (simple_make install_dir true true false fs).fs.modeOf
        (install_dir ++ ["bin", formula_name install_dir]) = some 0o755 := by
  have hbp : bin_populated fs install_dir = false := by
    simp [bin_populated, hbinAbsent]
  have hfile' : (fs.modeOf [formula_name install_dir]).isSome = true := hfile
  obtain ⟨m, hm⟩ : ∃ m, fs.modeOf [formula_name install_dir] = some m :=
    Option.isSome_iff_exists.mp hfile'
  have h1 : (fs.createDirAll (install_dir ++ ["bin"])).modeOf
      [formula_name install_dir] = some m := by
    rw [modeOf_createDirAll]; exact hm
  have h2 : ((fs.createDirAll (install_dir ++ ["bin"])).copyFile
      [formula_name install_dir]
      (install_dir ++ ["bin", formula_name install_dir])).modeOf
      (install_dir ++ ["bin", formula_name install_dir]) = some m :=
    modeOf_copyFile_self _ _ _ _ h1
  have h3 : (((fs.createDirAll (install_dir ++ ["bin"])).copyFile
      [formula_name install_dir]
      (install_dir ++ ["bin", formula_name install_dir])).setPermissions
      (install_dir ++ ["bin", formula_name install_dir]) 0o755).modeOf
      (install_dir ++ ["bin", formula_name install_dir]) = some 0o755 := by
    apply modeOf_setPermissions_self
    rw [FS.isFile, h2]
    rfl
  refine ⟨?_, ?_, ?_⟩
  · simp [simple_make, hbp, hname, hfile, hfile']
  · simp [simple_make, hbp, hname, hfile, hfile', FS.isFile]
    rw [h3]
    rfl
  · simp [simple_make, hbp, hname, hfile, hfile']
    exact h3

/-- Witness for C4: the build-root file `doggo` (mode 0644) is copied to
`<install dir>/bin/doggo` and ends with mode 0755, and the run succeeds
despite the failed install step. -/
theorem simple_make_manual_recovery_installs_witness :
    w4fs.isDir (w4dir ++ ["bin"]) = false ∧
    formula_name w4dir ≠ "" ∧
    w4fs.isFile [formula_name w4dir] = true ∧
    (simple_make w4dir true true false w4fs).result = .ok () ∧
    (simple_make w4dir true true false w4fs).fs.isFile
        (w4dir ++ ["bin", formula_name w4dir]) = true ∧
    (simple_make w4dir true true false w4fs).fs.modeOf
        (w4dir ++ ["bin", formula_name w4dir]) = some 0o755 := by
  refine ⟨rfl, by decide, rfl, ?_, ?_, ?_⟩
  · exact (simple_make_manual_recovery_installs w4dir w4fs rfl (by decide) rfl).1
  · exact (simple_make_manual_recovery_installs w4dir w4fs rfl (by decide) rfl).2.1
  · exact (simple_make_manual_recovery_installs w4dir w4fs rfl (by decide) rfl).2.2

/-- C6: when a tool name has a recognized override variable set to an
existing file, `find_compiler` returns exactly that path and consults
neither xcrun nor the PATH search. -/
theorem find_compiler_override_wins (e : Env) (name p : String)
    (hvar : env_var_name name ≠ "")
    (hset : e.getVar (env_var_name name) = some p)
    (hfile : e.pathExistsFile p = true) :
    find_compiler e name = { result := .ok p, probes := [] } := by
  have hov : overrideCandidate e name = some p := by
    unfold overrideCandidate
    rw [if_neg hvar, hset]
    simp [hfile]
  unfold find_compiler
  rw [hov]

/-- Witness for C6: CC points at a decoy file while xcrun and PATH would
both resolve to /usr/bin/cc; the decoy wins and no probe fires. -/
theorem find_compiler_override_wins_witness :
    env_var_name ("cc") ≠ "" ∧
    e6.getVar (env_var_name ("cc")) = some ("/decoy/cc") ∧
    e6.pathExistsFile ("/decoy/cc") = true ∧
    find_compiler e6 ("cc") = { result := .ok ("/decoy/cc"), probes := [] } :=
  ⟨by decide, rfl, rfl, find_compiler_override_wins e6 ("cc") ("/decoy/cc") (by decide) rfl rfl⟩

/-- C7: when the override yields nothing usable, xcrun yields nothing
usable, and the PATH search is empty, `find_compiler` fails with the
tool-not-found error (the `BuildEnvError` built at devtools.rs 86-88). -/
theorem find_compiler_exhausted_fails (e : Env) (name : String)
    (hov : ∀ p, e.getVar (env_var_name name) = some p → e.pathExistsFile p = false)
    (hx : e.macos = true → ∀ st out, e.xcrunOut name = some (st, out) →
        st = false ∨ out.trim = "" ∨ e.pathExistsFile out.trim = false)
    (hw : whichSearch e name = none) :
    (find_compiler e name).result = .error (.BuildEnvError (compilerNotFoundMsg name)) := by
  have hoc : overrideCandidate e name = none := by
    unfold overrideCandidate
    split
    · rfl
    · cases hgv : e.getVar (env_var_name name) with
      | none => rfl
      | some q => simp [hov q hgv]
  have hxc : xcrunCandidate e name = none := by
    unfold xcrunCandidate
    split
    · next hm =>
        cases hout : e.xcrunOut name with
        | none => rfl
        | some pr =>
            obtain ⟨st, out⟩ := pr
            rcases hx hm st out hout with h1 | h1 | h1 <;> simp [h1]
    · rfl
  simp only [find_compiler, hoc, hxc, hw]

/-- Witness for C7: no variables set, no files exist, xcrun cannot run,
and the PATH candidate does not exist — the error is returned. -/
theorem find_compiler_exhausted_fails_witness :
    whichSearch e7 ("cc") = none ∧
    (find_compiler e7 ("cc")).result = .error (.BuildEnvError (compilerNotFoundMsg ("cc"))) :=
  ⟨rfl, find_compiler_exhausted_fails e7 ("cc")
    (fun p h => by simp [Env.getVar, e7] at h)
    (fun _ _ _ h => nomatch h) rfl⟩

/-- C8: whenever `find_compiler` returns a path, that path exists as a
regular file in the snapshot, whichever of the three mechanisms produced
it. -/
theorem find_compiler_ok_implies_exists (e : Env) (name p : String)
    (h : (find_compiler e name).result = .ok p) :
    e.pathExistsFile p = true := by
  unfold find_compiler at h
  split at h
  · next q hq =>
      simp only [Except.ok.injEq] at h
      subst h
      exact overrideCandidate_pathExists e name q hq
  · split at h
    · next q hq =>
        simp only [Except.ok.injEq] at h
        subst h
        exact xcrunCandidate_pathExists e name q hq
    · split at h
      · next q hq =>
          simp only [Except.ok.injEq] at h
          subst h
          exact whichSearch_pathExists e name q hq
      · exact absurd h (by simp)

/-- Witness for C8: a resolution through the PATH search returns
/usr/bin/cc, which exists in the snapshot. -/
theorem find_compiler_ok_implies_exists_witness :
    (find_compiler e8 ("cc")).result = .ok ("/usr/bin/cc") ∧
    e8.pathExistsFile ("/usr/bin/cc") = true :=
  ⟨rfl, find_compiler_ok_implies_exists e8 ("cc") ("/usr/bin/cc") rfl⟩

end Sapphire
